import Mathlib

/-!
Verification of the victordb frame codec, CBOR payload decoders and table
server dispatch, as shallow Lean embeddings of the C sources under src/.

Bytes are modelled as natural numbers; byte streams and byte strings as
`List Nat`.  C out-parameters are modelled as `Option`-wrapped result
fields whose value `none` means "the decoder never wrote this output".
-/

/-- `MSG_MAXLEN` from src/src/protocol.h: maximal payload length. -/
def MSG_MAXLEN : Nat := 0x0FFFFFFF

/-- Big-endian serialization of a 32-bit word into 4 bytes, as performed by
`htonl` + `memcpy` in src/src/buffer.c `hdr_serialize`. -/
def be32 (raw : Nat) : List Nat :=
  [raw / 2 ^ 24 % 256, raw / 2 ^ 16 % 256, raw / 2 ^ 8 % 256, raw % 256]

/-- Reassembly of a 32-bit word from 4 big-endian bytes, as performed by
`memcpy` + `ntohl` in src/src/buffer.c `hdr_deserialize`. -/
def un_be32 (b : List Nat) : Nat :=
  b.getD 0 0 * 2 ^ 24 + b.getD 1 0 * 2 ^ 16 + b.getD 2 0 * 2 ^ 8 + b.getD 3 0

/-- `hdr_serialize` from src/src/buffer.c (lines 19-27): rejects `type > 0xF`
or `len > 0x0FFFFFFF`, otherwise packs `((type & 0xF) << 28) | (len & 0x0FFFFFFF)`
big-endian into 4 bytes.  The bit-and with `0xF` is `% 16`, the bit-and with
`0x0FFFFFFF` is `% 2^28`, and since the two fields occupy disjoint bit ranges
the bit-or is addition. -/
def hdr_serialize (ty len : Nat) : Option (List Nat) :=
  if ty > 0xF ∨ len > 0x0FFFFFFF then none
  else some (be32 (ty % 16 * 2 ^ 28 + len % 2 ^ 28))

/-- `hdr_deserialize` from src/src/buffer.c (lines 40-50): unpacks the 4-byte
big-endian word into `((raw >> 28) & 0xF, raw & 0x0FFFFFFF)`.  The null-pointer
guard of the C code cannot fail in this embedding. -/
def hdr_deserialize (b : List Nat) : Nat × Nat :=
  (un_be32 b / 2 ^ 28 % 16, un_be32 b % 2 ^ 28)

/-- `buffer_load_wal` from src/src/buffer.c (lines 136-156), over a byte
stream.  `fread` of `n` bytes returns `min n remaining` bytes; end-of-file is
stream exhaustion.  Returns `0` on a zero-byte read at a frame boundary, `-1`
on a short header or short payload, `1` when a full frame was consumed. -/
def buffer_load_wal (stream : List Nat) : Int :=
  if (stream.take 4).length = 0 then 0
  else if (stream.take 4).length ≠ 4 then -1
  else if (hdr_deserialize (stream.take 4)).2 > MSG_MAXLEN then -1
  else if ((stream.drop 4).take (hdr_deserialize (stream.take 4)).2).length
      ≠ (hdr_deserialize (stream.take 4)).2 then -1
  else 1

/-- The payload length announced by the first 4 bytes of a WAL stream. -/
def wal_frame_len (stream : List Nat) : Nat :=
  (hdr_deserialize (stream.take 4)).2

/-! ## CBOR payload model

The payload decoders in src/src/kvproto.c, src/src/protocol.c and
src/src/viproto.c consume the item tree produced by the external libcbor
call `cbor_load` and interrogate it through `cbor_isa_*` / accessor calls.
`CborItem` models that item tree; a buffer's `payload` field holds the
`cbor_load` result, `none` standing for a failed parse. -/

/-- A parsed CBOR item as seen through the libcbor item API.  `uint` carries
`cbor_int_get_width` as a byte count (1, 2, 4 or 8) and `cbor_get_uint*`'s
value; `floatCtrl` carries `cbor_float_get_width` as a byte count (0 for
ctrl values such as booleans, else 2, 4 or 8) and the raw bit pattern;
`other` stands for any further item kind (map, tag, negative int, ...). -/
inductive CborItem where
  | uint (width : Nat) (value : Nat)
  | bytestring (bytes : List Nat)
  | text (chars : List Nat)
  | array (items : List CborItem)
  | floatCtrl (width : Nat) (bits : Nat)
  | other

/-- A C data pointer whose target is a byte string; `none` is NULL. -/
abbrev CPtr := Option (List Nat)

/-- A message buffer after `cbor_load`: header type, header length, and the
loaded payload item (`none` when `cbor_load` failed). -/
structure Buffer where
  type : Nat
  len : Nat
  payload : Option CborItem

/-- `*key = NULL` when the byte string is empty, else the copied bytes
(src/src/kvproto.c lines 163-173 and 189-199). -/
def kvPtr (bs : List Nat) : CPtr :=
  if bs.length = 0 then none else some bs

/-- The four out-parameters of `buffer_read_kv_master`.  A field holds
`none` when the decoder never wrote through that pointer, and `some v`
when it stored `v` there. -/
structure KvOut where
  key : Option CPtr
  klen : Option Nat
  val : Option CPtr
  vlen : Option Nat
deriving DecidableEq

/-- The state of the out-parameters before the decoder writes anything. -/
def KvOut.untouched : KvOut := ⟨none, none, none, none⟩

/-- The value-extraction tail of `buffer_read_kv_master`
(src/src/kvproto.c lines 177-208): taken once the header, load, arity and
key checks have passed.  `val_item` is `handle[1]` for a 2-element array and
`handle[0]` for a 1-element array; a non-bytestring value item yields
`*val = NULL, *vlen = 0` and still returns success. -/
def kv_master_val (wantVal : Bool) (items : List CborItem) (acc : KvOut) : Int × KvOut :=
  if wantVal then
    match (if items.length = 2 then items.getD 1 CborItem.other
           else items.getD 0 CborItem.other) with
    | CborItem.bytestring vb =>
        (0, { acc with val := some (kvPtr vb), vlen := some vb.length })
    | _ => (0, { acc with val := some none, vlen := some 0 })
  else (0, acc)

/-- `buffer_read_kv_master` from src/src/kvproto.c (lines 132-209).
`wantKey` (resp. `wantVal`) models a caller passing non-NULL `key`/`klen`
(resp. `val`/`vlen`) out-pointers.  Constructor matches stand for the
`cbor_isa_array` / `cbor_isa_bytestring` checks; `malloc` failure is not
modelled. -/
def buffer_read_kv_master (buf : Buffer) (wantKey wantVal : Bool) : Int × KvOut :=
  if buf.len = 0 ∨ buf.len > MSG_MAXLEN then (-1, KvOut.untouched) else
  match buf.payload with
  | some (CborItem.array items) =>
    if items.length < 1 ∨ items.length > 2 then (-1, KvOut.untouched) else
    if wantKey then
      match items.getD 0 CborItem.other with
      | CborItem.bytestring kb =>
          kv_master_val wantVal items ⟨some (kvPtr kb), some kb.length, none, none⟩
      | _ => (-1, KvOut.untouched)
    else kv_master_val wantVal items KvOut.untouched
  | _ => (-1, KvOut.untouched)

/-- `buffer_read_put` (src/src/kvproto.c line 216): key and value wanted. -/
def buffer_read_put (buf : Buffer) : Int × KvOut :=
  buffer_read_kv_master buf true true

/-- `buffer_read_del` (src/src/kvproto.c line 224): key wanted only. -/
def buffer_read_del (buf : Buffer) : Int × KvOut :=
  buffer_read_kv_master buf true false

/-- `buffer_read_get` (src/src/kvproto.c line 232): key wanted only. -/
def buffer_read_get (buf : Buffer) : Int × KvOut :=
  buffer_read_kv_master buf true false

/-- `buffer_read_get_result` (src/src/kvproto.c line 240): value wanted only. -/
def buffer_read_get_result (buf : Buffer) : Int × KvOut :=
  buffer_read_kv_master buf false true

/-! ## Vector payload decoders -/

/-- A binary32 vector element as produced by the decoders: `exact` holds a
binary32 bit pattern taken from a width-4 CBOR float via
`cbor_float_get_float4`; `narrowed` holds a binary64 bit pattern taken from
a width-8 CBOR float via `cbor_float_get_float8` and narrowed to binary32
by the C cast `(float)`; `misread` records `cbor_float_get_float4` applied
to an item of a different width (src/src/protocol.c reads every float/ctrl
item with `cbor_float_get_float4`). -/
inductive F32Val where
  | exact (bits : Nat)
  | narrowed (bits : Nat)
  | misread (width bits : Nat)
deriving DecidableEq

/-- Whether `cbor_isa_float_ctrl` accepts the item. -/
def cbor_isa_float_ctrl : CborItem → Bool
  | CborItem.floatCtrl _ _ => true
  | _ => false

/-- What `cbor_float_get_float4` yields on a float/ctrl item. -/
def cbor_float_get_float4_val : CborItem → F32Val
  | CborItem.floatCtrl 4 bits => F32Val.exact bits
  | CborItem.floatCtrl w bits => F32Val.misread w bits
  | _ => F32Val.misread 0 0

/-- The element loop of `buffer_read_add` (src/src/protocol.c lines 78-86):
each element need only satisfy `cbor_isa_float_ctrl` and is read with
`cbor_float_get_float4`; the first failing element aborts with `-1`. -/
def read_add_elems : List CborItem → Option (List F32Val)
  | [] => some []
  | e :: es =>
      if cbor_isa_float_ctrl e then
        (read_add_elems es).map (fun xs => cbor_float_get_float4_val e :: xs)
      else none

/-- The allocated vector out-parameter of `buffer_read_add`: `arr` is a live
allocation holding the decoded elements, `dangling` an allocation freed on
the error path with the stale address still stored through the out-pointer
(src/src/protocol.c frees `*vec` without nulling it). -/
inductive VecPtr where
  | arr (xs : List F32Val)
  | dangling
deriving DecidableEq

/-- The four out-parameters of `buffer_read_add`; `none` = never written. -/
structure AddOut where
  vec : Option VecPtr
  dims : Option Nat
  payload : Option (List Nat)
  payloadLen : Option Nat
deriving DecidableEq

/-- The state of `buffer_read_add`'s out-parameters before any write. -/
def AddOut.untouched : AddOut := ⟨none, none, none, none⟩

/-- `buffer_read_add` from src/src/protocol.c (lines 64-98).  Note that
`*dims` and `*vec` are written before the element loop runs, so the
element-kind and payload-kind failure paths leave `*dims` set and `*vec`
dangling. -/
def buffer_read_add (buf : Buffer) : Int × AddOut :=
  match buf.payload with
  | some (CborItem.array items) =>
    if items.length ≠ 2 then (-1, AddOut.untouched) else
    match items.getD 0 CborItem.other with
    | CborItem.array elems =>
      match read_add_elems elems with
      | none => (-1, ⟨some VecPtr.dangling, some elems.length, none, none⟩)
      | some xs =>
        match items.getD 1 CborItem.other with
        | CborItem.bytestring pb =>
            (0, ⟨some (VecPtr.arr xs), some elems.length, some pb, some pb.length⟩)
        | _ => (-1, ⟨some VecPtr.dangling, some elems.length, none, none⟩)
    | _ => (-1, AddOut.untouched)
  | _ => (-1, AddOut.untouched)

/-- `cbor_float_get_width` as a byte count (0 on non-float items, where the
C code never asks). -/
def cbor_float_width : CborItem → Nat
  | CborItem.floatCtrl w _ => w
  | _ => 0

/-- The raw bit pattern of a float/ctrl item. -/
def cbor_float_bits : CborItem → Nat
  | CborItem.floatCtrl _ b => b
  | _ => 0

/-- One vector element as decoded by src/src/viproto.c (lines 170-191 and
325-346): `cbor_isa_float_ctrl` must hold, then the `switch` on
`cbor_float_get_width` reads width 4 with `cbor_float_get_float4`, reads
width 8 with `cbor_float_get_float8` narrowed by the C cast `(float)`, and
fails on any other width. -/
def read_vi_elem (e : CborItem) : Option F32Val :=
  if cbor_isa_float_ctrl e then
    if cbor_float_width e = 4 then some (F32Val.exact (cbor_float_bits e))
    else if cbor_float_width e = 8 then some (F32Val.narrowed (cbor_float_bits e))
    else none
  else none

/-- The element loop shared by `buffer_read_insert` and `buffer_read_search`
in src/src/viproto.c: the first offending element aborts the decode. -/
def read_vi_vec : List CborItem → Option (List F32Val)
  | [] => some []
  | e :: es =>
      match read_vi_elem e with
      | none => none
      | some v => (read_vi_vec es).map (fun xs => v :: xs)

/-- `buffer_read_insert` from src/src/viproto.c (lines 123-196), returning
`some (id, vec)` on success (`vec = none` models `*vec = NULL` for an empty
vector) and `none` on the `-1` paths.  The width guard on the id mirrors
`cbor_int_get_width(id_item) > CBOR_INT_64` with widths as byte counts. -/
def buffer_read_insert (buf : Buffer) : Option (Nat × Option (List F32Val)) :=
  if buf.len = 0 ∨ buf.len > MSG_MAXLEN then none else
  match buf.payload with
  | some (CborItem.array items) =>
    if items.length ≠ 2 then none else
    match items.getD 0 CborItem.other with
    | CborItem.uint w id =>
      if w > 8 then none else
      match items.getD 1 CborItem.other with
      | CborItem.array elems =>
        if elems.length = 0 then some (id, none) else
        match read_vi_vec elems with
        | none => none
        | some xs => some (id, some xs)
      | _ => none
    | _ => none
  | _ => none

/-- `buffer_read_search` from src/src/viproto.c (lines 290-384), returning
`some (vec, n)` on success (`vec = none` models `*vec = NULL` for an empty
vector) and `none` on the `-1` paths.  The trailing `switch` on
`cbor_int_get_width` accepts widths 1, 2, 4 and 8 bytes. -/
def buffer_read_search (buf : Buffer) : Option (Option (List F32Val) × Nat) :=
  if buf.len = 0 ∨ buf.len > MSG_MAXLEN then none else
  match buf.payload with
  | some (CborItem.array items) =>
    if items.length ≠ 2 then none else
    match items.getD 0 CborItem.other with
    | CborItem.array elems =>
      let vec : Option (Option (List F32Val)) :=
        if elems.length = 0 then some none
        else match read_vi_vec elems with
          | none => none
          | some xs => some (some xs)
      match vec with
      | none => none
      | some v =>
        match items.getD 1 CborItem.other with
        | CborItem.uint w n =>
          if w = 1 ∨ w = 2 ∨ w = 4 ∨ w = 8 then some (v, n) else none
        | _ => none
    | _ => none
  | _ => none

/-- A vector element the viproto decoders accept: a width-4 or width-8
CBOR float. -/
def isF32orF64 (e : CborItem) : Bool :=
  cbor_isa_float_ctrl e && (cbor_float_width e == 4 || cbor_float_width e == 8)

/-- The value an accepted vector element decodes to: a binary32 taken
as-is, or a binary64 narrowed to binary32. -/
def f32_of (e : CborItem) : F32Val :=
  if cbor_float_width e = 4 then F32Val.exact (cbor_float_bits e)
  else F32Val.narrowed (cbor_float_bits e)

/-! ## Message type constants and table-server dispatch -/

/-- `MSG_DEL` as defined in src/src/protocol.h line 9 (`0x03`).  This is the
definition in effect at the dispatch switch of src/src/table_server.c:
that file includes kvproto.h, which includes protocol.h, whose
`#define MSG_DEL 0x03` is the textually last definition before the switch. -/
def MSG_DEL : Nat := 0x03

/-- `MSG_ERROR` from src/src/protocol.h line 13. -/
def MSG_ERROR : Nat := 0x07

/-- Modelled from the spec: `MSG_PUT` is defined in the external
victor/victorkv.h header, which is absent from src/; spec section 3 assigns
the key-value engine `PUT = 8`. -/
def MSG_PUT : Nat := 8

/-- Modelled from the spec: `MSG_GET` is defined in the external
victor/victorkv.h header, which is absent from src/; spec section 3 assigns
the key-value engine `GET = 10`. -/
def MSG_GET : Nat := 10

/-- Where the table-server switch sends a received frame. -/
inductive Route where
  | put
  | del
  | get
  | unknown
deriving DecidableEq

/-- The dispatch switch of `victor_table_server`
(src/src/table_server.c lines 360-376). -/
def dispatch_route (ty : Nat) : Route :=
  if ty = MSG_PUT then Route.put
  else if ty = MSG_DEL then Route.del
  else if ty = MSG_GET then Route.get
  else Route.unknown

/-! ## Table server state, engine collaborator and request handlers -/

/-- Status codes of the external key-value engine.  `success` is
`KV_SUCCESS`, `keyNotFound` is `KV_KEY_NOT_FOUND`, `systemError` is
`SYSTEM_ERROR`; `err` stands for any further engine code. -/
inductive KvStatus where
  | success
  | keyNotFound
  | systemError
  | err (code : Nat)
deriving DecidableEq

/-- The opaque key-value store state threaded through the engine calls. -/
abbrev KVTable := List (List Nat × List Nat)

/-- The key-value engine collaborator (`kv_put`, `kv_del`, `kv_get` from the
external libvictor library).  The table server treats it as opaque: each
call returns a status, the updated store, and for `get` the looked-up value
pointer and its `int` length. -/
structure KvEngine where
  put : KVTable → CPtr → Nat → CPtr → Nat → KvStatus × KVTable
  del : KVTable → CPtr → Nat → KvStatus × KVTable
  get : KVTable → CPtr → Nat → KvStatus × CPtr × Int

/-- `VictorTable` from src/src/table_server.h: the store handle and the two
process-private operation counters. -/
structure VictorTable where
  table : KVTable
  op_add_counter : Nat
  op_del_counter : Nat
deriving DecidableEq

/-- The reply frame written back into the message buffer.  `opResult` keeps
the message-type constant the handler passed to `buffer_write_op_result`;
`errorMsg` is `MSG_ERROR`, `opResultMsg` is the external `MSG_OP_RESULT`
constant (the spec assigns it no numeric value). -/
inductive ReplyKind where
  | opResultMsg
  | errorMsg
deriving DecidableEq

/-- A reply frame: a generic operation result carrying an engine code, or a
`GET_RESULT` carrying the looked-up value
(`buffer_write_get_result`, spec section 3: `[value:bytes]`). -/
inductive Reply where
  | opResult (kind : ReplyKind) (code : KvStatus)
  | getResult (value : List Nat)
deriving DecidableEq

/-- Outcome of a mutating-request handler: the handler's return value, the
updated server state, whether a WAL append happened, and the reply frame
left in the message buffer. -/
structure HandlerResult where
  ret : Int
  core : VictorTable
  walAppended : Bool
  reply : Option Reply
deriving DecidableEq

/-- The key/len/value/len arguments `handle_put_message` passes to `kv_put`
after a successful decode. -/
def putArgs (msg : Buffer) : CPtr × Nat × CPtr × Nat :=
  ((buffer_read_put msg).2.key.getD none, (buffer_read_put msg).2.klen.getD 0,
   (buffer_read_put msg).2.val.getD none, (buffer_read_put msg).2.vlen.getD 0)

/-- The key/len arguments `handle_del_message` passes to `kv_del`. -/
def delArgs (msg : Buffer) : CPtr × Nat :=
  ((buffer_read_del msg).2.key.getD none, (buffer_read_del msg).2.klen.getD 0)

/-- The key/len arguments `handle_get_message` passes to `kv_get`. -/
def getArgs (msg : Buffer) : CPtr × Nat :=
  ((buffer_read_get msg).2.key.getD none, (buffer_read_get msg).2.klen.getD 0)

/-- `handle_put_message` from src/src/table_server.c (lines 89-125).
`walPresent` models a non-NULL `wal` stream, `walWriteOk` the success of
`buffer_dump_wal`: a failed WAL append only logs a warning.  The trailing
`buffer_write_op_result(msg, MSG_OP_RESULT, ret, ...)` is modelled from the
spec (the external writer encodes `[code, message]` and returns 0). -/
def handle_put_message (eng : KvEngine) (core : VictorTable) (msg : Buffer)
    (walPresent walWriteOk : Bool) : HandlerResult :=
  if (buffer_read_put msg).1 = -1 then ⟨-1, core, false, none⟩
  else
    let a := putArgs msg
    let pr := eng.put core.table a.1 a.2.1 a.2.2.1 a.2.2.2
    if pr.1 = KvStatus.success then
      ⟨0, ⟨pr.2, core.op_add_counter + 1, core.op_del_counter⟩,
        walPresent && walWriteOk,
        some (Reply.opResult ReplyKind.opResultMsg KvStatus.success)⟩
    else
      ⟨0, ⟨pr.2, core.op_add_counter, core.op_del_counter⟩, false,
        some (Reply.opResult ReplyKind.opResultMsg pr.1)⟩

/-- `handle_del_message` from src/src/table_server.c (lines 39-65): same
shape as the PUT handler, incrementing `op_del_counter`. -/
def handle_del_message (eng : KvEngine) (core : VictorTable) (msg : Buffer)
    (walPresent walWriteOk : Bool) : HandlerResult :=
  if (buffer_read_del msg).1 = -1 then ⟨-1, core, false, none⟩
  else
    let a := delArgs msg
    let dr := eng.del core.table a.1 a.2
    if dr.1 = KvStatus.success then
      ⟨0, ⟨dr.2, core.op_add_counter, core.op_del_counter + 1⟩,
        walPresent && walWriteOk,
        some (Reply.opResult ReplyKind.opResultMsg KvStatus.success)⟩
    else
      ⟨0, ⟨dr.2, core.op_add_counter, core.op_del_counter⟩, false,
        some (Reply.opResult ReplyKind.opResultMsg dr.1)⟩

/-- Outcome of the read-only GET handler. -/
structure GetResult where
  ret : Int
  reply : Option Reply
deriving DecidableEq

/-- `handle_get_message` from src/src/table_server.c (lines 148-173): a
`KV_SUCCESS` lookup whose value pointer is NULL or whose length is not
positive is downgraded to `KV_KEY_NOT_FOUND` and answered with an
`MSG_ERROR` op-result frame. -/
def handle_get_message (eng : KvEngine) (core : VictorTable) (msg : Buffer) :
    GetResult :=
  if (buffer_read_get msg).1 = -1 then ⟨-1, none⟩
  else
    let a := getArgs msg
    let gr := eng.get core.table a.1 a.2
    if gr.1 = KvStatus.success ∧ gr.2.1 ≠ none ∧ gr.2.2 > 0 then
      ⟨0, some (Reply.getResult (gr.2.1.getD []))⟩
    else
      let st := if gr.1 = KvStatus.success ∧ (gr.2.1 = none ∨ gr.2.2 ≤ 0) then
          KvStatus.keyNotFound else gr.1
      ⟨0, some (Reply.opResult ReplyKind.errorMsg st)⟩

/-! ## WAL replay and the snapshot-export check -/

/-- One iteration of the WAL replay loop of `victor_table_loadwal`
(src/src/table_server.c lines 205-227): PUT and DEL frames go through the
live handlers with the WAL stream passed as NULL, any other type is skipped
with a warning. -/
def replay_step (eng : KvEngine) (core : VictorTable) (f : Buffer) : VictorTable :=
  if f.type = MSG_PUT then (handle_put_message eng core f false false).core
  else if f.type = MSG_DEL then (handle_del_message eng core f false false).core
  else core

/-- `victor_table_loadwal` from src/src/table_server.c (lines 195-244),
applied to the parsed frames of the WAL stream: folds the replay step over
the frames in file order. -/
def victor_table_loadwal (eng : KvEngine) (core : VictorTable) :
    List Buffer → VictorTable
  | [] => core
  | f :: fs => victor_table_loadwal eng (replay_step eng core f) fs

/-- The effect of one replayed frame on the store, and how many successful
PUT and DEL applications it contributes (0 or 1 each): a frame counts
exactly when its decode succeeds and the engine call returns `KV_SUCCESS`,
which is precisely when the replayed handler increments a counter. -/
def replay_step_effect (eng : KvEngine) (t : KVTable) (f : Buffer) :
    KVTable × Nat × Nat :=
  if f.type = MSG_PUT then
    if (buffer_read_put f).1 = -1 then (t, 0, 0)
    else
      let a := putArgs f
      let pr := eng.put t a.1 a.2.1 a.2.2.1 a.2.2.2
      if pr.1 = KvStatus.success then (pr.2, 1, 0) else (pr.2, 0, 0)
  else if f.type = MSG_DEL then
    if (buffer_read_del f).1 = -1 then (t, 0, 0)
    else
      let a := delArgs f
      let dr := eng.del t a.1 a.2
      if dr.1 = KvStatus.success then (dr.2, 0, 1) else (dr.2, 0, 0)
  else (t, 0, 0)

/-- The number of successful PUT and DEL applications over a whole WAL. -/
def wal_replay_counts (eng : KvEngine) (t : KVTable) : List Buffer → Nat × Nat
  | [] => (0, 0)
  | f :: fs =>
      let e := replay_step_effect eng t f
      let rest := wal_replay_counts eng e.1 fs
      (e.2.1 + rest.1, e.2.2 + rest.2)

/-- `DEFAULT_EXPORT_THRESHOLD` from src/src/server.h line 7. -/
def DEFAULT_EXPORT_THRESHOLD : Int := 10

/-- `get_export_threshold` from src/src/server.h (lines 17-26), with the
`getenv("VICTOR_EXPORT_THRESHOLD")` + `atoi` pair abstracted to the parsed
integer (`none` = variable unset): a positive parsed value wins, anything
else falls back to the default. -/
def get_export_threshold (env : Option Int) : Int :=
  match env with
  | some v => if v > 0 then v else DEFAULT_EXPORT_THRESHOLD
  | none => DEFAULT_EXPORT_THRESHOLD

/-- State of the server after the end-of-iteration export check: the core,
whether the WAL file still exists, and whether an export was attempted. -/
structure LoopEndState where
  core : VictorTable
  walExists : Bool
  exportAttempted : Bool
deriving DecidableEq

/-- The end-of-iteration snapshot check of `victor_table_server`
(src/src/table_server.c lines 390-402): when the counter sum exceeds the
threshold, `kv_dump` is attempted (`exportOk` models its success); success
unlinks the WAL file and zeroes both counters, failure logs a warning and
changes nothing. -/
def export_check (threshold : Int) (exportOk : Bool) (core : VictorTable)
    (walExists : Bool) : LoopEndState :=
  if (core.op_add_counter + core.op_del_counter : Int) > threshold then
    if exportOk then ⟨⟨core.table, 0, 0⟩, false, true⟩
    else ⟨core, walExists, true⟩
  else ⟨core, walExists, false⟩

/-- Modelled from the spec: the key-value store collaborator of spec
section 6.4, used only to instantiate the opaque engine at concrete
inputs.  `put` overwrites by key, `del` of an absent key fails, `get`
returns the stored value; a NULL key is a system error. -/
def spec_engine : KvEngine where
  put := fun t k _ v _ =>
    match k with
    | none => (KvStatus.systemError, t)
    | some kb => (KvStatus.success, (kb, v.getD []) :: t.filter (fun p => p.1 ≠ kb))
  del := fun t k _ =>
    match k with
    | none => (KvStatus.systemError, t)
    | some kb =>
      if t.any (fun p => p.1 = kb) then
        (KvStatus.success, t.filter (fun p => p.1 ≠ kb))
      else (KvStatus.keyNotFound, t)
  get := fun t k _ =>
    match k with
    | none => (KvStatus.systemError, none, 0)
    | some kb =>
      match t.find? (fun p => p.1 = kb) with
      | some p => (KvStatus.success, some p.2, (p.2.length : Int))
      | none => (KvStatus.keyNotFound, none, 0)

/-- C4: for every in-range `(type, len)`, serializing the header into its
4 bytes and parsing those bytes yields the same `(type, len)` back. -/
theorem header_roundtrip (ty len : Nat) (hty : ty ≤ 15) (hlen : len ≤ 2 ^ 28 - 1) :
    ∃ b : List Nat, hdr_serialize ty len = some b ∧ b.length = 4 ∧
      hdr_deserialize b = (ty, len) := by
  refine ⟨be32 (ty % 16 * 2 ^ 28 + len % 2 ^ 28), ?_, rfl, ?_⟩
  · unfold hdr_serialize
    rw [if_neg]
    push_neg
    constructor <;> omega
  · unfold hdr_deserialize be32 un_be32
    simp only [List.getD_cons_zero, List.getD_cons_succ, Prod.mk.injEq]
    constructor <;> omega

/-- Witness for `header_roundtrip` at the extreme in-range input. -/
theorem header_roundtrip_witness :
    ∃ b : List Nat, hdr_serialize 15 (2 ^ 28 - 1) = some b ∧ b.length = 4 ∧
      hdr_deserialize b = (15, 2 ^ 28 - 1) :=
  header_roundtrip 15 (2 ^ 28 - 1) (by norm_num) (by norm_num)

/-- C3: the WAL reader reports a zero-byte read at a frame boundary as clean
end (`0`), a short read mid-frame (1-3 header bytes, or fewer payload bytes
than the header announces) as an error (`-1`), and returns `1` exactly when a
complete frame of 4 header bytes plus `len` payload bytes was read. -/
theorem wal_reader_eof_vs_error (s : List Nat) :
    (s.length = 0 → buffer_load_wal s = 0) ∧
    (1 ≤ s.length → s.length ≤ 3 → buffer_load_wal s = -1) ∧
    (4 ≤ s.length → s.length < 4 + wal_frame_len s → buffer_load_wal s = -1) ∧
    (buffer_load_wal s = 1 ↔ 4 ≤ s.length ∧ 4 + wal_frame_len s ≤ s.length) := by
  have hmod : (hdr_deserialize (s.take 4)).2 ≤ MSG_MAXLEN := by
    unfold hdr_deserialize MSG_MAXLEN
    omega
  unfold buffer_load_wal wal_frame_len
  simp only [List.length_take, List.length_drop]
  refine ⟨?_, ?_, ?_, ?_⟩
  · intro h
    rw [if_pos (by omega)]
  · intro h1 h2
    rw [if_neg (by omega), if_pos (by omega)]
  · intro h1 h2
    rw [if_neg (by omega), if_neg (by omega), if_neg (by omega), if_pos (by omega)]
  · constructor
    · intro h
      split_ifs at h <;> omega
    · intro h
      rw [if_neg (by omega), if_neg (by omega), if_neg (by omega), if_neg (by omega)]

/-- Witness for `wal_reader_eof_vs_error`: empty stream, 1-byte stream, a
stream whose header announces 2 payload bytes but carries 1, and a complete
5-byte frame. -/
theorem wal_reader_eof_vs_error_witness :
    buffer_load_wal [] = 0 ∧
    buffer_load_wal [0] = -1 ∧
    buffer_load_wal [0, 0, 0, 2, 9] = -1 ∧
    buffer_load_wal [0, 0, 0, 1, 9] = 1 := by
  refine ⟨(wal_reader_eof_vs_error []).1 rfl,
    (wal_reader_eof_vs_error [0]).2.1 (by decide) (by decide),
    (wal_reader_eof_vs_error [0, 0, 0, 2, 9]).2.2.1 (by decide) (by decide),
    (wal_reader_eof_vs_error [0, 0, 0, 1, 9]).2.2.2.2 (by decide)⟩

/-! ## Decoder lemmas -/

/-- The value-extraction tail of the kv master decoder always returns 0 and
never touches the key outputs it is given. -/
theorem kv_master_val_spec (wantVal : Bool) (items : List CborItem) (acc : KvOut) :
    (kv_master_val wantVal items acc).1 = 0 ∧
    (kv_master_val wantVal items acc).2.key = acc.key ∧
    (kv_master_val wantVal items acc).2.klen = acc.klen := by
  unfold kv_master_val
  split
  · split <;> simp
  · simp

/-- The value-extraction tail never reports failure. -/
theorem kv_master_val_ne_neg_one (wantVal : Bool) (items : List CborItem)
    (acc : KvOut) : (kv_master_val wantVal items acc).1 ≠ -1 := by
  have h := (kv_master_val_spec wantVal items acc).1
  omega

/-- The kv master decoder on a buffer given by its fields, with the
structure projections reduced; holds by definitional unfolding. -/
theorem kv_master_eq (bty blen : Nat) (pl : Option CborItem) (wk wv : Bool) :
    buffer_read_kv_master ⟨bty, blen, pl⟩ wk wv =
      (if blen = 0 ∨ blen > MSG_MAXLEN then (-1, KvOut.untouched) else
       match pl with
       | some (CborItem.array items) =>
         if items.length < 1 ∨ items.length > 2 then (-1, KvOut.untouched) else
         if wk then
           match items.getD 0 CborItem.other with
           | CborItem.bytestring kb =>
               kv_master_val wv items ⟨some (kvPtr kb), some kb.length, none, none⟩
           | _ => (-1, KvOut.untouched)
         else kv_master_val wv items KvOut.untouched
       | _ => (-1, KvOut.untouched)) := rfl

/-- Shared helper for C7: the kv master decoder with a wanted key accepts a
message whose first array element is an empty byte string, writing
`*key = NULL` and `*klen = 0`. -/
theorem kv_master_zero_key (wantVal : Bool) (ty len : Nat) (rest : List CborItem)
    (h1 : 1 ≤ len) (h2 : len ≤ MSG_MAXLEN) (h3 : rest.length ≤ 1) :
    (buffer_read_kv_master
        ⟨ty, len, some (CborItem.array (CborItem.bytestring [] :: rest))⟩
        true wantVal).1 = 0 ∧
    (buffer_read_kv_master
        ⟨ty, len, some (CborItem.array (CborItem.bytestring [] :: rest))⟩
        true wantVal).2.key = some none ∧
    (buffer_read_kv_master
        ⟨ty, len, some (CborItem.array (CborItem.bytestring [] :: rest))⟩
        true wantVal).2.klen = some 0 := by
  have hc1 : ¬(len = 0 ∨ len > MSG_MAXLEN) := by omega
  have hc2 : ¬((CborItem.bytestring [] :: rest).length < 1 ∨
      (CborItem.bytestring [] :: rest).length > 2) := by
    simp only [List.length_cons]
    omega
  have hred : buffer_read_kv_master
      ⟨ty, len, some (CborItem.array (CborItem.bytestring [] :: rest))⟩
      true wantVal =
      kv_master_val wantVal (CborItem.bytestring [] :: rest)
        ⟨some (kvPtr ([] : List Nat)), some (([] : List Nat).length),
         none, none⟩ := by
    simp [buffer_read_kv_master, if_neg hc1, if_neg hc2]
    intro hcon
    exact absurd hcon (by omega)
  rw [hred]
  exact ⟨(kv_master_val_spec wantVal _ _).1,
    (kv_master_val_spec wantVal _ _).2.1,
    (kv_master_val_spec wantVal _ _).2.2⟩

/-- Accepted elements decode to their mapped binary32 values. -/
theorem read_vi_vec_all_ok (elems : List CborItem)
    (h : ∀ e ∈ elems, isF32orF64 e = true) :
    read_vi_vec elems = some (elems.map f32_of) := by
  induction elems with
  | nil => rfl
  | cons e es ih =>
    have he := h e (List.mem_cons_self e es)
    have hes := ih (fun x hx => h x (List.mem_cons_of_mem e hx))
    unfold isF32orF64 at he
    simp only [Bool.and_eq_true, Bool.or_eq_true, beq_iff_eq] at he
    obtain ⟨hf, hw⟩ := he
    unfold read_vi_vec read_vi_elem
    rw [if_pos hf]
    rcases hw with h4 | h8
    · rw [if_pos h4, hes]
      simp [List.map_cons, f32_of, h4]
    · have hne : cbor_float_width e ≠ 4 := by omega
      rw [if_neg hne, if_pos h8, hes]
      simp [List.map_cons, f32_of, hne]

/-- An element that is not a width-4 or width-8 float makes the element
loop fail. -/
theorem read_vi_vec_bad (elems : List CborItem)
    (h : ∃ e ∈ elems, isF32orF64 e = false) :
    read_vi_vec elems = none := by
  induction elems with
  | nil => simp at h
  | cons e es ih =>
    rcases h with ⟨x, hx, hbad⟩
    rcases List.mem_cons.mp hx with rfl | hmem
    · have hnone : read_vi_elem x = none := by
        cases x
        case floatCtrl w b =>
          simp only [isF32orF64, cbor_isa_float_ctrl, cbor_float_width,
            Bool.true_and, Bool.or_eq_false_iff, beq_eq_false_iff_ne] at hbad
          simp [read_vi_elem, cbor_isa_float_ctrl, cbor_float_width,
            hbad.1, hbad.2]
        all_goals rfl
      unfold read_vi_vec
      rw [hnone]
    · have := ih ⟨x, hmem, hbad⟩
      unfold read_vi_vec
      cases hre : read_vi_elem e
      · rfl
      · rw [this]
        rfl

/-! ## Replay lemmas -/

/-- One replayed frame updates the store as `replay_step_effect` says and
adds that effect's success counts to the counters. -/
theorem replay_step_spec (eng : KvEngine) (core : VictorTable) (f : Buffer) :
    replay_step eng core f =
      ⟨(replay_step_effect eng core.table f).1,
       core.op_add_counter + (replay_step_effect eng core.table f).2.1,
       core.op_del_counter + (replay_step_effect eng core.table f).2.2⟩ := by
  simp only [replay_step, replay_step_effect, handle_put_message,
    handle_del_message]
  split_ifs <;> rfl

/-- Replaying a WAL adds the per-frame success counts to the counters. -/
theorem loadwal_counter_accum (eng : KvEngine) (fs : List Buffer) :
    ∀ core : VictorTable,
      (victor_table_loadwal eng core fs).op_add_counter =
          core.op_add_counter + (wal_replay_counts eng core.table fs).1 ∧
      (victor_table_loadwal eng core fs).op_del_counter =
          core.op_del_counter + (wal_replay_counts eng core.table fs).2 := by
  induction fs with
  | nil => intro core; simp [victor_table_loadwal, wal_replay_counts]
  | cons f fs ih =>
    intro core
    have hrec := ih ⟨(replay_step_effect eng core.table f).1,
      core.op_add_counter + (replay_step_effect eng core.table f).2.1,
      core.op_del_counter + (replay_step_effect eng core.table f).2.2⟩
    dsimp only at hrec
    simp only [victor_table_loadwal, wal_replay_counts,
      replay_step_spec eng core f]
    omega

/-! ## Claim theorems -/

/-- C1: whenever `op_add_counter + op_del_counter` exceeds the export
threshold at the end-of-iteration check, an export is attempted; on success
the WAL file is unlinked and both counters are reset to zero, on failure
only a warning is logged and the WAL file and counters are left alone.  The
threshold defaults to 10 and a positive `VICTOR_EXPORT_THRESHOLD` value
overrides it. -/
theorem export_threshold_flush (threshold : Int) (exportOk : Bool)
    (core : VictorTable) (walExists : Bool)
    (h : (core.op_add_counter + core.op_del_counter : Int) > threshold) :
    (export_check threshold exportOk core walExists).exportAttempted = true ∧
    (exportOk = true →
      export_check threshold exportOk core walExists =
        ⟨⟨core.table, 0, 0⟩, false, true⟩) ∧
    (exportOk = false →
      export_check threshold exportOk core walExists = ⟨core, walExists, true⟩) ∧
    get_export_threshold none = 10 ∧
    (∀ v : Int, 0 < v → get_export_threshold (some v) = v) ∧
    (∀ v : Int, v ≤ 0 → get_export_threshold (some v) = 10) := by
  refine ⟨?_, ?_, ?_, rfl, ?_, ?_⟩
  · unfold export_check
    rw [if_pos h]
    cases exportOk <;> rfl
  · intro he
    subst he
    unfold export_check
    rw [if_pos h]
    rfl
  · intro he
    subst he
    unfold export_check
    rw [if_pos h]
    rfl
  · intro v hv
    have hgt : v > 0 := hv
    simp [get_export_threshold, hgt]
  · intro v hv
    have hng : ¬v > 0 := by omega
    simp [get_export_threshold, hng, DEFAULT_EXPORT_THRESHOLD]

/-- Witness for `export_threshold_flush`: eleven counted operations against
the default threshold of ten trigger an export that clears the WAL. -/
theorem export_threshold_flush_witness :
    export_check 10 true ⟨[], 6, 5⟩ true = ⟨⟨[], 0, 0⟩, false, true⟩ :=
  (export_threshold_flush 10 true ⟨[], 6, 5⟩ true (by decide)).2.1 rfl

/-- C2 (amended): startup initializes both counters to zero, but WAL replay
runs the live handlers, so after the startup sequence the counters equal
the number of successfully replayed PUT and DEL operations — zero only
when the WAL contains no successfully applied mutating entry. -/
theorem startup_counters_after_replay (eng : KvEngine) (frames : List Buffer)
    (core : VictorTable) (ha : core.op_add_counter = 0)
    (hd : core.op_del_counter = 0) :
    (victor_table_loadwal eng core frames).op_add_counter =
        (wal_replay_counts eng core.table frames).1 ∧
    (victor_table_loadwal eng core frames).op_del_counter =
        (wal_replay_counts eng core.table frames).2 := by
  obtain ⟨h1, h2⟩ := loadwal_counter_accum eng frames core
  rw [h1, h2, ha, hd]
  omega

/-- Witness for `startup_counters_after_replay`: replaying one valid DEL
frame of an absent key from the initial state. -/
theorem startup_counters_after_replay_witness :
    (victor_table_loadwal spec_engine ⟨[], 0, 0⟩
        [⟨3, 4, some (CborItem.array [CborItem.bytestring [1]])⟩]).op_add_counter =
      (wal_replay_counts spec_engine []
        [⟨3, 4, some (CborItem.array [CborItem.bytestring [1]])⟩]).1 ∧
    (victor_table_loadwal spec_engine ⟨[], 0, 0⟩
        [⟨3, 4, some (CborItem.array [CborItem.bytestring [1]])⟩]).op_del_counter =
      (wal_replay_counts spec_engine []
        [⟨3, 4, some (CborItem.array [CborItem.bytestring [1]])⟩]).2 :=
  startup_counters_after_replay spec_engine
    [⟨3, 4, some (CborItem.array [CborItem.bytestring [1]])⟩] ⟨[], 0, 0⟩ rfl rfl

/-- C2 counterexample: replaying a WAL holding one valid PUT frame from the
freshly initialized state leaves `op_add_counter = 1`, not zero, before any
client request is served. -/
theorem startup_counters_counterexample :
    (victor_table_loadwal spec_engine ⟨[], 0, 0⟩
        [⟨8, 5, some (CborItem.array
          [CborItem.bytestring [107], CborItem.bytestring [118]])⟩]
      ).op_add_counter = 1 ∧
    (victor_table_loadwal spec_engine ⟨[], 0, 0⟩
        [⟨8, 5, some (CborItem.array
          [CborItem.bytestring [107], CborItem.bytestring [118]])⟩]
      ).op_add_counter ≠ 0 := by
  decide

/-- C3's statement lives above as `wal_reader_eof_vs_error`. C5: a WAL
append failure after a successful engine call only logs a warning: the
operation counter is still incremented, the client still receives the
engine's success code in an OP_RESULT reply, and the handler does not
report the fatal `-1` that would close the connection. -/
theorem wal_write_failure_nonfatal (eng : KvEngine) (core : VictorTable)
    (msg msg2 : Buffer)
    (hp : (buffer_read_put msg).1 ≠ -1)
    (hps : (eng.put core.table (putArgs msg).1 (putArgs msg).2.1
        (putArgs msg).2.2.1 (putArgs msg).2.2.2).1 = KvStatus.success)
    (hd : (buffer_read_del msg2).1 ≠ -1)
    (hds : (eng.del core.table (delArgs msg2).1 (delArgs msg2).2).1 =
        KvStatus.success) :
    (handle_put_message eng core msg true false).ret = 0 ∧
    (handle_put_message eng core msg true false).core.op_add_counter =
        core.op_add_counter + 1 ∧
    (handle_put_message eng core msg true false).reply =
        some (Reply.opResult ReplyKind.opResultMsg KvStatus.success) ∧
    (handle_put_message eng core msg true false).walAppended = false ∧
    (handle_del_message eng core msg2 true false).ret = 0 ∧
    (handle_del_message eng core msg2 true false).core.op_del_counter =
        core.op_del_counter + 1 ∧
    (handle_del_message eng core msg2 true false).reply =
        some (Reply.opResult ReplyKind.opResultMsg KvStatus.success) ∧
    (handle_del_message eng core msg2 true false).walAppended = false := by
  unfold handle_put_message handle_del_message
  rw [if_neg hp, if_neg hd]
  simp only [hps, hds]
  simp

/-- Witness for `wal_write_failure_nonfatal`: a concrete PUT of key 107 and
a concrete DEL of the already-present key 107 under the spec-modelled
engine, both with the WAL stream present but the append failing. -/
theorem wal_write_failure_nonfatal_witness :
    (handle_put_message spec_engine ⟨[([107], [118])], 2, 3⟩
        ⟨8, 5, some (CborItem.array
          [CborItem.bytestring [107], CborItem.bytestring [118]])⟩
        true false).core.op_add_counter = 3 ∧
    (handle_del_message spec_engine ⟨[([107], [118])], 2, 3⟩
        ⟨3, 4, some (CborItem.array [CborItem.bytestring [107]])⟩
        true false).core.op_del_counter = 4 :=
  ⟨(wal_write_failure_nonfatal spec_engine ⟨[([107], [118])], 2, 3⟩
      ⟨8, 5, some (CborItem.array
        [CborItem.bytestring [107], CborItem.bytestring [118]])⟩
      ⟨3, 4, some (CborItem.array [CborItem.bytestring [107]])⟩
      (by decide) (by decide) (by decide) (by decide)).2.1,
   (wal_write_failure_nonfatal spec_engine ⟨[([107], [118])], 2, 3⟩
      ⟨8, 5, some (CborItem.array
        [CborItem.bytestring [107], CborItem.bytestring [118]])⟩
      ⟨3, 4, some (CborItem.array [CborItem.bytestring [107]])⟩
      (by decide) (by decide) (by decide) (by decide)).2.2.2.2.2.1⟩

/-- C6 (amended): in the code as compiled, the table server routes a frame
to the key-deletion handler exactly when its header type equals 3, the
`MSG_DEL` of src/src/protocol.h — not 12, the value the spec adopts for the
key-value engine. -/
theorem kv_del_route_is_three (ty : Nat) :
    dispatch_route ty = Route.del ↔ ty = 3 := by
  unfold dispatch_route MSG_PUT MSG_DEL MSG_GET
  split_ifs with h1 h2 h3 <;> simp_all

/-- C6 counterexample: a frame with header type 12 is not routed to the
key-deletion handler (it falls through to the unknown-type branch), while
type 3 is. -/
theorem kv_del_route_counterexample :
    dispatch_route 12 ≠ Route.del ∧ dispatch_route 12 = Route.unknown ∧
    dispatch_route 3 = Route.del := by
  decide

/-- C7 (amended): a zero-length key byte string in a PUT, GET or DEL
payload is accepted, not rejected: the decoders return success with
`*key = NULL` and `*klen = 0`, leaving any rejection to the engine. -/
theorem zero_length_key_accepted (ty len : Nat) (rest : List CborItem)
    (h1 : 1 ≤ len) (h2 : len ≤ MSG_MAXLEN) (h3 : rest.length ≤ 1) :
    (buffer_read_put
        ⟨ty, len, some (CborItem.array (CborItem.bytestring [] :: rest))⟩).1 = 0 ∧
    (buffer_read_put
        ⟨ty, len, some (CborItem.array (CborItem.bytestring [] :: rest))⟩).2.key =
      some none ∧
    (buffer_read_get
        ⟨ty, len, some (CborItem.array (CborItem.bytestring [] :: rest))⟩).1 = 0 ∧
    (buffer_read_get
        ⟨ty, len, some (CborItem.array (CborItem.bytestring [] :: rest))⟩).2.key =
      some none ∧
    (buffer_read_del
        ⟨ty, len, some (CborItem.array (CborItem.bytestring [] :: rest))⟩).1 = 0 ∧
    (buffer_read_del
        ⟨ty, len, some (CborItem.array (CborItem.bytestring [] :: rest))⟩).2.key =
      some none := by
  unfold buffer_read_put buffer_read_get buffer_read_del
  exact ⟨(kv_master_zero_key true ty len rest h1 h2 h3).1,
    (kv_master_zero_key true ty len rest h1 h2 h3).2.1,
    (kv_master_zero_key false ty len rest h1 h2 h3).1,
    (kv_master_zero_key false ty len rest h1 h2 h3).2.1,
    (kv_master_zero_key false ty len rest h1 h2 h3).1,
    (kv_master_zero_key false ty len rest h1 h2 h3).2.1⟩

/-- Witness for `zero_length_key_accepted`: a PUT payload with an empty key
and the value byte string 5. -/
theorem zero_length_key_accepted_witness :
    (buffer_read_put ⟨8, 2, some (CborItem.array
        [CborItem.bytestring [], CborItem.bytestring [5]])⟩).1 = 0 ∧
    (buffer_read_put ⟨8, 2, some (CborItem.array
        [CborItem.bytestring [], CborItem.bytestring [5]])⟩).2.key = some none ∧
    (buffer_read_get ⟨8, 2, some (CborItem.array
        [CborItem.bytestring [], CborItem.bytestring [5]])⟩).1 = 0 ∧
    (buffer_read_get ⟨8, 2, some (CborItem.array
        [CborItem.bytestring [], CborItem.bytestring [5]])⟩).2.key = some none ∧
    (buffer_read_del ⟨8, 2, some (CborItem.array
        [CborItem.bytestring [], CborItem.bytestring [5]])⟩).1 = 0 ∧
    (buffer_read_del ⟨8, 2, some (CborItem.array
        [CborItem.bytestring [], CborItem.bytestring [5]])⟩).2.key = some none :=
  zero_length_key_accepted 8 2 [CborItem.bytestring [5]]
    (by decide) (by decide) (by decide)

/-- C7 counterexample: `buffer_read_del` on a DEL payload whose key is the
empty byte string returns success (0), not the failure (-1) the claim
requires. -/
theorem zero_length_key_counterexample :
    (buffer_read_del ⟨3, 3, some (CborItem.array [CborItem.bytestring []])⟩).1
      = 0 ∧
    (buffer_read_del ⟨3, 3, some (CborItem.array [CborItem.bytestring []])⟩).1
      ≠ -1 := by
  decide

/-- C8 (amended): the key-value decoders (`buffer_read_kv_master` behind
`buffer_read_put`/`get`/`del`/`get_result`) fail without mutating any
caller output; the vector decoder `buffer_read_add` does not share this
property — it writes the dims and vector outputs before detecting a bad
vector element or payload. -/
theorem kv_decoder_failure_no_mutation (buf : Buffer) (wantKey wantVal : Bool)
    (h : (buffer_read_kv_master buf wantKey wantVal).1 = -1) :
    (buffer_read_kv_master buf wantKey wantVal).2 = KvOut.untouched := by
  obtain ⟨bty, blen, pl⟩ := buf
  rw [kv_master_eq] at h ⊢
  by_cases h0 : blen = 0 ∨ blen > MSG_MAXLEN
  · rw [if_pos h0]
  · rw [if_neg h0] at h ⊢
    rcases pl with _ | (⟨w, v⟩ | kb | cs | items | ⟨fw, fb⟩ | _)
    · rfl
    · rfl
    · rfl
    · rfl
    · dsimp only at h ⊢
      by_cases harity : items.length < 1 ∨ items.length > 2
      · rw [if_pos harity]
      · rw [if_neg harity] at h ⊢
        cases wantKey with
        | false =>
          rw [if_neg Bool.false_ne_true] at h
          exact absurd h (kv_master_val_ne_neg_one wantVal items KvOut.untouched)
        | true =>
          rw [if_pos rfl] at h ⊢
          cases hk : items.getD 0 CborItem.other
          · rfl
          · rename_i kb2
            rw [hk] at h
            exact absurd h (kv_master_val_ne_neg_one wantVal items
              ⟨some (kvPtr kb2), some kb2.length, none, none⟩)
          · rfl
          · rfl
          · rfl
          · rfl
    · rfl
    · rfl

/-- Witness for `kv_decoder_failure_no_mutation`: a payload whose top-level
item is an unsigned integer rather than an array. -/
theorem kv_decoder_failure_no_mutation_witness :
    (buffer_read_kv_master ⟨8, 3, some (CborItem.uint 1 5)⟩ true true).2 =
      KvOut.untouched :=
  kv_decoder_failure_no_mutation ⟨8, 3, some (CborItem.uint 1 5)⟩ true true
    (by decide)

/-- C8 counterexample: `buffer_read_add` on a payload whose vector holds an
unsigned integer element returns failure yet has written the dims output
(and left the vector output dangling), so a failing decode does mutate
caller-supplied outputs. -/
theorem decoder_mutation_counterexample :
    (buffer_read_add ⟨1, 5, some (CborItem.array
        [CborItem.array [CborItem.uint 1 7], CborItem.bytestring []])⟩).1 = -1 ∧
    (buffer_read_add ⟨1, 5, some (CborItem.array
        [CborItem.array [CborItem.uint 1 7], CborItem.bytestring []])⟩).2.dims =
      some 1 ∧
    (buffer_read_add ⟨1, 5, some (CborItem.array
        [CborItem.array [CborItem.uint 1 7], CborItem.bytestring []])⟩).2 ≠
      AddOut.untouched := by
  decide

/-- C9: in a decoded INSERT or SEARCH vector, a binary32 float element is
accepted as-is, a binary64 float element is accepted narrowed to binary32,
and any element that is not a float of one of those two widths makes the
decoder fail. -/
theorem vector_float_width_policy (len1 len2 id n : Nat) (elems : List CborItem)
    (h1 : 1 ≤ len1) (h2 : len1 ≤ MSG_MAXLEN)
    (h3 : 1 ≤ len2) (h4 : len2 ≤ MSG_MAXLEN) :
    ((∀ e ∈ elems, isF32orF64 e = true) →
      buffer_read_insert ⟨1, len1, some (CborItem.array
          [CborItem.uint 8 id, CborItem.array elems])⟩ =
        some (id, if elems.length = 0 then none else some (elems.map f32_of)) ∧
      buffer_read_search ⟨5, len2, some (CborItem.array
          [CborItem.array elems, CborItem.uint 4 n])⟩ =
        some (if elems.length = 0 then none else some (elems.map f32_of), n)) ∧
    ((∃ e ∈ elems, isF32orF64 e = false) →
      buffer_read_insert ⟨1, len1, some (CborItem.array
          [CborItem.uint 8 id, CborItem.array elems])⟩ = none ∧
      buffer_read_search ⟨5, len2, some (CborItem.array
          [CborItem.array elems, CborItem.uint 4 n])⟩ = none) := by
  have hc1 : ¬(len1 = 0 ∨ len1 > MSG_MAXLEN) := by omega
  have hc2 : ¬(len2 = 0 ∨ len2 > MSG_MAXLEN) := by omega
  constructor
  · intro hall
    have hv := read_vi_vec_all_ok elems hall
    by_cases hz : elems.length = 0
    · rcases List.length_eq_zero.mp hz with rfl
      constructor <;>
        simp [buffer_read_insert, buffer_read_search, hc1, hc2]
    · constructor <;>
        simp [buffer_read_insert, buffer_read_search, hc1, hc2, hv, hz]
  · intro hbad
    have hv := read_vi_vec_bad elems hbad
    have hz : ¬elems.length = 0 := by
      rcases hbad with ⟨x, hx, _⟩
      rcases elems with _ | _
      · simp at hx
      · simp
    constructor <;>
      simp [buffer_read_insert, buffer_read_search, hc1, hc2, hv, hz]

/-- Witness for `vector_float_width_policy`: a two-element vector holding a
binary32 with bit pattern 10 and a binary64 with bit pattern 20. -/
theorem vector_float_width_policy_witness :
    buffer_read_insert ⟨1, 6, some (CborItem.array
        [CborItem.uint 8 42, CborItem.array
          [CborItem.floatCtrl 4 10, CborItem.floatCtrl 8 20]])⟩ =
      some (42, some [F32Val.exact 10, F32Val.narrowed 20]) ∧
    buffer_read_search ⟨5, 6, some (CborItem.array
        [CborItem.array [CborItem.floatCtrl 4 10, CborItem.floatCtrl 8 20],
         CborItem.uint 4 3])⟩ =
      some (some [F32Val.exact 10, F32Val.narrowed 20], 3) :=
  (vector_float_width_policy 6 6 42 3
    [CborItem.floatCtrl 4 10, CborItem.floatCtrl 8 20]
    (by decide) (by decide) (by decide) (by decide)).1 (by decide)

/-- C10: a GET request whose engine lookup returns `KV_SUCCESS` but a NULL
value pointer or a non-positive value length is answered with an
`MSG_ERROR` frame carrying `KV_KEY_NOT_FOUND`, never with a GET_RESULT
frame. -/
theorem get_null_value_not_found (eng : KvEngine) (core : VictorTable)
    (msg : Buffer) (val : CPtr) (vlen : Int)
    (hdec : (buffer_read_get msg).1 ≠ -1)
    (heng : eng.get core.table (getArgs msg).1 (getArgs msg).2 =
        (KvStatus.success, val, vlen))
    (hbad : val = none ∨ vlen ≤ 0) :
    (handle_get_message eng core msg).reply =
        some (Reply.opResult ReplyKind.errorMsg KvStatus.keyNotFound) ∧
    ∀ v : List Nat,
      (handle_get_message eng core msg).reply ≠ some (Reply.getResult v) := by
  have hred : handle_get_message eng core msg =
      ⟨0, some (Reply.opResult ReplyKind.errorMsg KvStatus.keyNotFound)⟩ := by
    rcases hbad with hvn | hvl
    · simp [handle_get_message, hdec, heng, hvn]
    · have hng : ¬vlen > 0 := by omega
      simp [handle_get_message, hdec, heng, hng, hvl]
  rw [hred]
  exact ⟨rfl, fun v => by simp⟩

/-- Witness for `get_null_value_not_found`: an engine whose lookup reports
success with a NULL value, queried for key 107. -/
theorem get_null_value_not_found_witness :
    (handle_get_message
        ⟨spec_engine.put, spec_engine.del,
         fun _ _ _ => (KvStatus.success, none, 0)⟩
        ⟨[], 0, 0⟩
        ⟨10, 4, some (CborItem.array [CborItem.bytestring [107]])⟩).reply =
      some (Reply.opResult ReplyKind.errorMsg KvStatus.keyNotFound) ∧
    ∀ v : List Nat,
      (handle_get_message
        ⟨spec_engine.put, spec_engine.del,
         fun _ _ _ => (KvStatus.success, none, 0)⟩
        ⟨[], 0, 0⟩
        ⟨10, 4, some (CborItem.array [CborItem.bytestring [107]])⟩).reply ≠
        some (Reply.getResult v) :=
  get_null_value_not_found
    ⟨spec_engine.put, spec_engine.del,
     fun _ _ _ => (KvStatus.success, none, 0)⟩
    ⟨[], 0, 0⟩
    ⟨10, 4, some (CborItem.array [CborItem.bytestring [107]])⟩
    none 0 (by decide) rfl (Or.inl rfl)
